import Mathlib

/-!
Shallow embedding of the deploy/monitor subsystem of the RiskGuard backend
(`backend/routes/deploy.js`): the per-agent update buffer, the poll route,
the stop route, the stdout chunk handler with its metrics accumulation, and
the start route's path-resolution fallback.  JavaScript-specific behaviours
(`Array.prototype.slice` with negative start, `x || -1` on a falsy stored
index, `Map` insertion order, `String.prototype.includes`) are modelled
explicitly below.
-/

/-- Model of JavaScript `Array.prototype.slice(start)` with a single
(start) argument: a negative start counts from the end of the array. -/
def jsSlice {α : Type} (l : List α) (i : Int) : List α :=
  if i < 0 then l.drop (((l.length : Int) + i).toNat) else l.drop i.toNat

/-- Model of the JavaScript expression `m.get(k) || -1` applied to a stored
numeric index: a missing entry (`undefined`) yields -1, and — because `0` is
falsy in JavaScript — a stored value of `0` also yields -1. -/
def jsOrNegOne : Option Int → Int
  | none => -1
  | some x => if x = 0 then -1 else x

/-- Truthiness of an optional JavaScript string: `undefined` and the empty
string are falsy. -/
def jsTruthyStr : Option String → Bool
  | none => false
  | some s => !s.isEmpty

/-- Model of JavaScript `Map.prototype.set`: replace the value of an
existing key in place, otherwise append the binding (insertion order). -/
def assocSet {β : Type} (l : List (String × β)) (k : String) (v : β) :
    List (String × β) :=
  if (l.lookup k).isSome then
    l.map (fun p => if p.1 = k then (k, v) else p)
  else l ++ [(k, v)]

/-- Model of JavaScript `Map.prototype.delete`: remove the binding of a key. -/
def assocDelete {β : Type} (l : List (String × β)) (k : String) :
    List (String × β) :=
  l.filter (fun p => p.1 ≠ k)

/-!
Per-agent update log and server-held poll watermark, as kept by the module
level maps `monitorUpdates` and `sentUpdateIndices` of `deploy.js`.  The
code stores only the update payloads; the `Nat` component of each entry is
a specification ghost recording the append-order sequence number of the
entry (how many updates had been appended to this agent's log before it),
so that claims about "sequence indices" can be stated.  The code itself
never stores or consults this number.
-/

/-- State that `deploy.js` keeps for a single agent: the retained update
buffer (`monitorUpdates.get(agentId)`), the ghost count of appends so far,
and the stored watermark (`sentUpdateIndices.get(agentId)`, `none` when the
map has no entry for the agent). -/
structure MonSession (α : Type) where
  updates : List (Nat × α)
  total : Nat
  lastSent : Option Int
deriving Repr, DecidableEq

/-- State of a freshly started agent: `monitorUpdates.set(agentId, [])` and
no `sentUpdateIndices` entry. -/
def initSession {α : Type} : MonSession α :=
  { updates := [], total := 0, lastSent := none }

/-- One append by a stream handler of `deploy.js`:
`updates.push(obj); monitorUpdates.set(agentId, updates.slice(-50))`.
The new entry is stamped with the ghost sequence number `s.total`. -/
def pushUpdate {α : Type} (s : MonSession α) (a : α) : MonSession α :=
  { updates := jsSlice (s.updates ++ [(s.total, a)]) (-50),
    total := s.total + 1,
    lastSent := s.lastSent }

/-- One handling of `GET /monitor-updates/:agentId` for this agent
(`deploy.js` lines 415-436), returning the response body and the new state:
`allUpdates.slice(lastSentIndex + 1)` is sent, and
`sentUpdateIndices.set(agentId, allUpdates.length - 1)` happens while the
request is processed, before the response is (maybe) delivered. -/
def pollSession {α : Type} (s : MonSession α) :
    List (Nat × α) × MonSession α :=
  let allUpdates := s.updates
  let lastSentIndex := jsOrNegOne s.lastSent
  let newUpdates := jsSlice allUpdates (lastSentIndex + 1)
  (newUpdates,
   { s with lastSent := some ((allUpdates.length : Int) - 1) })

/-- Appending a list of payloads in order, left to right. -/
def pushAll {α : Type} (s : MonSession α) (l : List α) : MonSession α :=
  l.foldl pushUpdate s

/-!
Route-level state: the three module-level maps of `deploy.js`
(`activeMonitors`, `monitorUpdates`, `sentUpdateIndices`) as association
lists in `Map` insertion order.
-/

/-- Whether one character list starts with another. -/
def isPrefixCh : List Char → List Char → Bool
  | [], _ => true
  | _ :: _, [] => false
  | a :: as, b :: bs => a == b && isPrefixCh as bs

/-- Whether `needle` occurs as a contiguous subsequence of the second list. -/
def hasSub (needle : List Char) : List Char → Bool
  | [] => needle.isEmpty
  | c :: cs => isPrefixCh needle (c :: cs) || hasSub needle cs

/-- Model of JavaScript `hay.includes(needle)` on strings. -/
def strIncludes (hay needle : String) : Bool :=
  hasSub needle.toList hay.toList

/-- Model of the spawned monitor process as observed by the stop route.
Per Node.js `child_process` semantics, `killed` records whether a signal
was successfully dispatched to the process by `kill()` — it does not mean
the process has exited; `exited` records actual exit and is never
consulted by `deploy.js`. -/
structure ProcState where
  killed : Bool
  exited : Bool
deriving Repr, DecidableEq

/-- The kill sequence of `POST /stop-monitoring` (`deploy.js` lines
704-713): if the process has not been signalled, send SIGTERM (setting
`killed`), and after the 5-second timeout send SIGKILL only when `killed`
is still false.  Returns the process state and the signals sent. -/
def stopKillSequence (p : ProcState) : ProcState × List String :=
  if !p.killed then
    let p1 : ProcState := { p with killed := true }
    if !p1.killed then
      ({ p1 with killed := true }, ["SIGTERM", "SIGKILL"])
    else (p1, ["SIGTERM"])
  else (p, [])

/-- The three module-level maps of `deploy.js` for all agents. -/
structure DeployState (α : Type) where
  activeMonitors : List (String × ProcState)
  monitorUpdates : List (String × List (Nat × α))
  sentUpdateIndices : List (String × Int)
deriving Repr, DecidableEq

/-- An HTTP response of the poll route: status code and body. -/
structure PollResp (α : Type) where
  status : Nat
  body : List (Nat × α)
deriving Repr, DecidableEq

/-- `GET /monitor-updates/:agentId` (`deploy.js` lines 415-436) over the
full map state: `monitorUpdates.get(agentId) || []`,
`sentUpdateIndices.get(agentId) || -1`, respond
`allUpdates.slice(lastSentIndex + 1)` with status 200, and store
`allUpdates.length - 1` as the new watermark. -/
def pollRoute {α : Type} (st : DeployState α) (agentId : String) :
    PollResp α × DeployState α :=
  let allUpdates := (st.monitorUpdates.lookup agentId).getD []
  let lastSentIndex := jsOrNegOne (st.sentUpdateIndices.lookup agentId)
  let newUpdates := jsSlice allUpdates (lastSentIndex + 1)
  ({ status := 200, body := newUpdates },
   { st with
      sentUpdateIndices :=
        assocSet st.sentUpdateIndices agentId
          ((allUpdates.length : Int) - 1) })

/-- Splitting a character list at every occurrence of a separator
character, the model of JavaScript `str.split(sep)` for a one-character
separator (empty segments are kept). -/
def splitSep (sep : Char) : List Char → List (List Char)
  | [] => [[]]
  | c :: cs =>
      if c = sep then [] :: splitSep sep cs
      else
        match splitSep sep cs with
        | [] => [[c]]
        | l :: ls => (c :: l) :: ls

/-- The second underscore-separated token of a session id, as computed by
`sessionId.split('_')[1]` in `deploy.js` line 687; when the token does not
exist, JavaScript passes `undefined` to `String.prototype.includes`, which
coerces it to the string "undefined". -/
def secondToken (sid : String) : List Char :=
  ((splitSep '_' sid.toList).get? 1).getD (("undefined").toList)

/-- Agent selection of `POST /stop-monitoring` (`deploy.js` lines 682-692):
use `agentId` when truthy; otherwise, when `sessionId` is truthy, scan
`activeMonitors` in insertion order and pick the first id that contains
the second underscore-separated token of `sessionId`. -/
def stopTarget (activeIds : List String)
    (sessionId agentId : Option String) : Option String :=
  if jsTruthyStr agentId then agentId
  else if jsTruthyStr sessionId then
    let tok := secondToken (sessionId.getD "")
    activeIds.find? (fun id => hasSub tok id.toList)
  else none

/-- Result of the stop route: HTTP status, body success flag, the agent
stopped (if any), the signals sent to its process, and the new map state. -/
structure StopResult (α : Type) where
  status : Nat
  success : Bool
  stoppedAgent : Option String
  signals : List String
  state : DeployState α
deriving Repr, DecidableEq

/-- `POST /stop-monitoring` (`deploy.js` lines 675-732): select the target
agent, answer 404 when none is selected or it is not active, otherwise run
the kill sequence, delete the agent from `activeMonitors` and
`monitorUpdates` (and from those two maps only), and answer 200. -/
def stopMonitoring {α : Type} (st : DeployState α)
    (sessionId agentId : Option String) : StopResult α :=
  match stopTarget (st.activeMonitors.map Prod.fst) sessionId agentId with
  | none =>
      { status := 404, success := false, stoppedAgent := none,
        signals := [], state := st }
  | some t =>
      match st.activeMonitors.lookup t with
      | none =>
          { status := 404, success := false, stoppedAgent := none,
            signals := [], state := st }
      | some proc =>
          { status := 200, success := true, stoppedAgent := some t,
            signals := (stopKillSequence proc).2,
            state :=
              { activeMonitors := assocDelete st.activeMonitors t,
                monitorUpdates := assocDelete st.monitorUpdates t,
                sentUpdateIndices := st.sentUpdateIndices } }

/-!
The stdout handler of `deploy.js` (lines 271-335) and its helper
`parseMetricsSection` (lines 218-268).  Lines are lists of characters.
The metrics marker is the six-character sequence that the source file
holds in its string literals (bytes c3 a2, e2 80 9d, e2 80 9d, c3 a2,
e2 80 9d, e2 82 ac — the characters U+00E2, U+201D, U+201D, U+00E2,
U+201D, U+20AC).
-/

/-- The marker character sequence used by the console-line checks
`line.includes('...')` of `deploy.js` (built from the exact code points of
the source's string literals). -/
def metricMarker : List Char :=
  [Char.ofNat 0xE2, Char.ofNat 0x201D, Char.ofNat 0x201D,
   Char.ofNat 0xE2, Char.ofNat 0x201D, Char.ofNat 0x20AC]

/-- Whether a line has a character that is not whitespace: the model of the
JavaScript truthiness test `line.trim() !== ''` (and of the chunk filter
`filter(line => line.trim())`). -/
def hasNonWs (l : List Char) : Bool :=
  l.any (fun c => !c.isWhitespace)

/-- Splitting a character list at every newline, the model of JavaScript
`str.split('\n')` (empty segments are kept). -/
def splitNl : List Char → List (List Char)
  | [] => [[]]
  | c :: cs =>
      if c = '\n' then [] :: splitNl cs
      else
        match splitNl cs with
        | [] => [[c]]
        | l :: ls => (c :: l) :: ls

/-- Decimal value of a digit run, as computed by `parseInt` on a `\d+`
regex capture. -/
def digitsToNat (ds : List Char) : Nat :=
  ds.foldl (fun n c => 10 * n + (c.toNat - ('0').toNat)) 0

/-- A JavaScript number as produced by `parseFloat`: either a numeric
value (represented exactly as a rational, since the captures here are
short decimal literals and no arithmetic is done on them) or `NaN`. -/
inductive JsNum where
  | val (q : ℚ)
  | nan
deriving Repr, DecidableEq

/-- Model of `parseFloat` applied to a regex capture of class `[\d.]+`:
the longest decimal-literal head is parsed; a capture with no such head
(for example a run of dots) gives `NaN`. -/
def jsParseFloat (s : List Char) : JsNum :=
  let ip := s.takeWhile Char.isDigit
  let rest := s.drop ip.length
  if !ip.isEmpty then
    match rest with
    | '.' :: r2 =>
        let fp := r2.takeWhile Char.isDigit
        JsNum.val ((digitsToNat ip : ℚ) + (digitsToNat fp : ℚ) / (10 : ℚ) ^ fp.length)
    | _ => JsNum.val (digitsToNat ip)
  else
    match s with
    | '.' :: r2 =>
        let fp := r2.takeWhile Char.isDigit
        if fp.isEmpty then JsNum.nan
        else JsNum.val ((digitsToNat fp : ℚ) / (10 : ℚ) ^ fp.length)
    | _ => JsNum.nan

/-- Attempted match of the regex `LABEL:\s*(\d+)` at the start of a
character list: the label literal, then whitespace, then at least one
digit; returns the maximal digit capture. -/
def tryNatAt (label l : List Char) : Option (List Char) :=
  if isPrefixCh label l then
    let t := (l.drop label.length).dropWhile Char.isWhitespace
    let ds := t.takeWhile Char.isDigit
    if ds.isEmpty then none else some ds
  else none

/-- Leftmost match of `LABEL:\s*(\d+)` in a line, the model of
`line.match(/LABEL:\s*(\d+)/)` returning the first capture. -/
def scanNat (label : List Char) : List Char → Option (List Char)
  | [] => none
  | c :: cs =>
      match tryNatAt label (c :: cs) with
      | some ds => some ds
      | none => scanNat label cs

/-- Attempted match of the regex `LABEL:\s*([\d.]+)` at the start of a
character list. -/
def tryFloatAt (label l : List Char) : Option (List Char) :=
  if isPrefixCh label l then
    let t := (l.drop label.length).dropWhile Char.isWhitespace
    let ds := t.takeWhile (fun c => c.isDigit || c == '.')
    if ds.isEmpty then none else some ds
  else none

/-- Leftmost match of `LABEL:\s*([\d.]+)` in a line, the model of
`line.match(/LABEL:\s*([\d.]+)/)` returning the first capture. -/
def scanFloat (label : List Char) : List Char → Option (List Char)
  | [] => none
  | c :: cs =>
      match tryFloatAt label (c :: cs) with
      | some ds => some ds
      | none => scanFloat label cs

/-- The accumulator object built by `parseMetricsSection`: each field is
present exactly when its assignment ran. -/
structure Metrics where
  loc : Option Nat := none
  complexity : Option JsNum := none
  dependencies : Option Nat := none
  functions : Option Nat := none
  classes : Option Nat := none
  comments : Option Nat := none
  complexity_per_loc : Option JsNum := none
  comment_ratio : Option JsNum := none
  functions_per_class : Option JsNum := none
deriving Repr, DecidableEq

/-- One iteration of the `for (const line of lines)` loop of
`parseMetricsSection` (`deploy.js` lines 220-266): the if/else-if chain of
marker-label containment checks, each assigning its field from the regex
capture when the regex matches. -/
def applyMetricLine (m : Metrics) (line : List Char) : Metrics :=
  if hasSub (metricMarker ++ (" LOC:").toList) line then
    match scanNat ("LOC:").toList line with
    | some ds => { m with loc := some (digitsToNat ds) }
    | none => m
  else if hasSub (metricMarker ++ (" COMPLEXITY:").toList) line then
    match scanFloat ("COMPLEXITY:").toList line with
    | some ds => { m with complexity := some (jsParseFloat ds) }
    | none => m
  else if hasSub (metricMarker ++ (" DEPENDENCIES:").toList) line then
    match scanNat ("DEPENDENCIES:").toList line with
    | some ds => { m with dependencies := some (digitsToNat ds) }
    | none => m
  else if hasSub (metricMarker ++ (" FUNCTIONS:").toList) line then
    match scanNat ("FUNCTIONS:").toList line with
    | some ds => { m with functions := some (digitsToNat ds) }
    | none => m
  else if hasSub (metricMarker ++ (" CLASSES:").toList) line then
    match scanNat ("CLASSES:").toList line with
    | some ds => { m with classes := some (digitsToNat ds) }
    | none => m
  else if hasSub (metricMarker ++ (" COMMENTS:").toList) line then
    match scanNat ("COMMENTS:").toList line with
    | some ds => { m with comments := some (digitsToNat ds) }
    | none => m
  else if hasSub (metricMarker ++ (" COMPLEXITY PER LOC:").toList) line then
    match scanFloat ("COMPLEXITY PER LOC:").toList line with
    | some ds => { m with complexity_per_loc := some (jsParseFloat ds) }
    | none => m
  else if hasSub (metricMarker ++ (" COMMENT RATIO:").toList) line then
    match scanFloat ("COMMENT RATIO:").toList line with
    | some ds => { m with comment_ratio := some (jsParseFloat ds) }
    | none => m
  else if hasSub (metricMarker ++ (" FUNCTIONS PER CLASS:").toList) line then
    match scanFloat ("FUNCTIONS PER CLASS:").toList line with
    | some ds => { m with functions_per_class := some (jsParseFloat ds) }
    | none => m
  else m

/-- `parseMetricsSection(lines)` (`deploy.js` lines 218-268): fold the
chain over the lines and return the object when at least one field was
assigned, `null` otherwise. -/
def parseMetricsSection (lines : List (List Char)) : Option Metrics :=
  let m := lines.foldl applyMetricLine {}
  if m = ({} : Metrics) then none else some m

/-- The result of `JSON.parse(line)` when it succeeds, as used by the
handler: the `type` discriminant and the source line the object came from
(which determines all its other fields). -/
structure JVal where
  ty : String
  raw : List Char
deriving Repr, DecidableEq

/-- An update record pushed into `monitorUpdates` by the stream handlers
of `deploy.js`.  The `timestamp`, `agentId` and `deployedLocation`
metadata fields, constant per session or wall-clock valued, are elided. -/
inductive UpdRec where
  | jsonUpd (j : JVal)
  | consoleOutput (message : List Char) (metrics : Option Metrics)
  | errorMsg (message : List Char)
  | monitorStopped (message : List Char)
deriving Repr, DecidableEq

/-- State the stdout handler keeps between chunks: the `bufferLines`
closure variable and the stored `monitorUpdates` entry of the agent. -/
structure HandlerState where
  bufferLines : List (List Char)
  stored : List UpdRec
deriving Repr, DecidableEq

/-- Handler state at session start: empty buffer, empty updates entry. -/
def initHandler : HandlerState := { bufferLines := [], stored := [] }

/-- One iteration of the `lines.forEach` loop of the stdout handler
(`deploy.js` lines 281-331), threading `(bufferLines, updates)`:
accumulate a marker line into the buffer; on a non-marker, non-blank line
flush the buffer (the flushed metrics are only logged); then try
`JSON.parse` — a structured update is pushed only for the `file_change`
and `analysis_result` types, and any other line becomes a
`console_output` update carrying metrics exactly when the line contains
'EXTRACTED FEATURES' and the buffer is still non-empty. -/
def lineStep (tryJson : List Char → Option JVal)
    (acc : List (List Char) × List UpdRec) (line : List Char) :
    List (List Char) × List UpdRec :=
  let buf1 := if hasSub metricMarker line then acc.1 ++ [line] else acc.1
  let buf2 :=
    if buf1.length > 0 && !(hasSub metricMarker line) && hasNonWs line
    then [] else buf1
  match tryJson line with
  | some j =>
      if j.ty = "file_change" || j.ty = "analysis_result" then
        (buf2, acc.2 ++ [UpdRec.jsonUpd j])
      else (buf2, acc.2)
  | none =>
      let ms :=
        if hasSub ("EXTRACTED FEATURES").toList line && buf2.length > 0
        then parseMetricsSection buf2 else none
      (buf2, acc.2 ++ [UpdRec.consoleOutput line ms])

/-- One firing of the stdout `data` handler (`deploy.js` lines 271-335):
split the chunk on newlines, keep the lines with a non-blank trim, fold
`lineStep` over them starting from the stored updates, and store the
result trimmed to the last 50 entries (`updates.slice(-50)` is stored
after every processed line, so the stored entry is updated only when the
chunk contributed at least one line). -/
def processChunk (tryJson : List Char → Option JVal)
    (st : HandlerState) (chunk : List Char) : HandlerState :=
  let lines := (splitNl chunk).filter hasNonWs
  let res := lines.foldl (lineStep tryJson) (st.bufferLines, st.stored)
  { bufferLines := res.1,
    stored := if lines.isEmpty then st.stored else jsSlice res.2 (-50) }

/-- Feeding a sequence of stdout chunks to a fresh handler. -/
def processChunks (tryJson : List Char → Option JVal)
    (chunks : List (List Char)) : HandlerState :=
  chunks.foldl (processChunk tryJson) initHandler

/-- The model of `JSON.parse` for subprocess output made of plain console
text: every line fails to parse as JSON.  (All lines appearing in the
theorems below are not valid JSON.) -/
def tryJsonNever : List Char → Option JVal := fun _ => none

/-!
The spawn-failure flow of `POST /start-realtime-monitor` (`deploy.js`
lines 368-401): once `spawn` has returned a process object, the route
unconditionally answers success after a 1-second `setTimeout`; a launch
failure is delivered asynchronously through the process `error` event,
whose handler removes the agent from `activeMonitors` and pushes an
`error` update into `monitorUpdates`.
-/

/-- An HTTP response of the start route: status code and success flag. -/
structure StartResp where
  status : Nat
  success : Bool
deriving Repr, DecidableEq

/-- Observable outcome of the start route after `spawn`: the response
handed to the caller, whether `activeMonitors` still holds the agent, and
the agent's `monitorUpdates` entry. -/
structure SpawnOutcome where
  resp : StartResp
  sessionActive : Bool
  updatesLog : List (Nat × UpdRec)
deriving Repr, DecidableEq

/-- The message head of the update pushed by the `error` event handler
(`deploy.js` line 375). -/
def failMsgHead : List Char := ("Failed to start monitoring: ").toList

/-- The start route from the `spawn` call on, as a function of whether the
launch fails with an error message (the `error` event) or succeeds:
`monitorUpdates` starts at `[]` and `activeMonitors` gains the agent; on a
launch error `activeMonitors.delete(agentId)` runs and the error update is
pushed; on both paths the `setTimeout` answers 200 with `success: true`. -/
def startAfterSpawn (launchErr : Option (List Char)) : SpawnOutcome :=
  match launchErr with
  | some msg =>
      { resp := { status := 200, success := true },
        sessionActive := false,
        updatesLog :=
          jsSlice ([(0, UpdRec.errorMsg (failMsgHead ++ msg))]) (-50) }
  | none =>
      { resp := { status := 200, success := true },
        sessionActive := true,
        updatesLog := [] }

/-!
Path resolution of `POST /start-realtime-monitor` (`deploy.js` lines
34-122): candidate locations for a relative folder path, the fallback that
creates `/tmp/riskguard_test/<folderPath>` (seeded with a `test.py` file)
when no candidate is a directory, and the subsequent stat/write/deploy
steps up to the success response.  Filesystem facts are supplied as
oracles.
-/

/-- Model of `path.join(a, b)` for the path shapes used by this route
(no '..' segments or doubled separators arise, so joining is
concatenation with a slash). -/
def pjoin (a b : String) : String := a ++ "/" ++ b

/-- Model of POSIX `path.isAbsolute`: the path starts with a slash. -/
def isAbsolutePath (p : String) : Bool :=
  match p.toList with
  | [] => false
  | c :: _ => c = '/'

/-- The filesystem environment the resolution phase consults.  `homeUser`
models `process.env.USER || 'user'` and `mediaUser` models
`process.env.USER || 'sekar'` (the two defaults differ in the source);
`mediaDrives` is the listing of `/media/<mediaUser>` (empty when that
directory is unreadable); `isDir p` models `fs.stat(p)` succeeding with a
directory; `mkdirOk` models the fallback `fs.mkdir` (recursive) together
with the seeding `fs.writeFile` of `test.py` succeeding. -/
structure PathEnv where
  projectRoot : String
  cwd : String
  homeUser : String
  mediaUser : String
  mediaDrives : List String
  isDir : String → Bool
  mkdirOk : Bool

/-- The candidate list `possiblePaths` of `deploy.js` lines 41-59, in
order: project root, current directory, home, Desktop, Documents, the
path as given, then one candidate per media drive. -/
def possiblePaths (env : PathEnv) (folderPath : String) : List String :=
  [pjoin env.projectRoot folderPath,
   pjoin env.cwd folderPath,
   pjoin (pjoin "/home" env.homeUser) folderPath,
   pjoin (pjoin (pjoin "/home" env.homeUser) "Desktop") folderPath,
   pjoin (pjoin (pjoin "/home" env.homeUser) "Documents") folderPath,
   folderPath] ++
  env.mediaDrives.map (fun d => pjoin (pjoin ("/media/" ++ env.mediaUser) d) folderPath)

/-- Result of the resolution phase: an existing directory was found, the
`/tmp/riskguard_test` fallback directory was created (and seeded with
`test.py`), or creation failed (HTTP 500, `DEPLOYMENT_LOCATION_ERROR`). -/
inductive ResolveOutcome where
  | found (p : String)
  | created (p : String)
  | locError
deriving Repr, DecidableEq

/-- The resolution phase (`deploy.js` lines 35-98): an absolute path is
taken as is; a relative path resolves to the first candidate that is a
directory; with no such candidate, `/tmp/riskguard_test/<folderPath>` is
created. -/
def resolveFolderPath (env : PathEnv) (folderPath : String) :
    ResolveOutcome :=
  if isAbsolutePath folderPath then ResolveOutcome.found folderPath
  else
    match (possiblePaths env folderPath).find? env.isDir with
    | some p => ResolveOutcome.found p
    | none =>
        let tempPath := pjoin "/tmp/riskguard_test" folderPath
        if env.mkdirOk then ResolveOutcome.created tempPath
        else ResolveOutcome.locError

/-- Oracles for the steps after resolution: the stat check on the resolved
path (`stats.isDirectory()`), the write-permission probe (writing and
unlinking `.riskguard_test`), and the deployment copy/config/requirements
writes. -/
structure PostEnv where
  statIsDir : String → Bool
  writable : String → Bool
  deployOk : Bool

/-- Observable outcome of the start route: HTTP status, success flag, the
`folderPath` field of the success body, and whether the fallback seeded a
`test.py` file. -/
structure StartRouteResult where
  status : Nat
  success : Bool
  folderPath : Option String
  wroteTestFile : Bool
deriving Repr, DecidableEq

/-- The route steps after resolution (`deploy.js` lines 102-209 and the
`setTimeout` success response at lines 392-401): the stat and
writability checks answer 400 on failure, a failed deployment answers
500, and otherwise the route answers 200 with the resolved path. -/
def startRouteAfterResolve (post : PostEnv) (p : String) (created : Bool) :
    StartRouteResult :=
  if post.statIsDir p && post.writable p then
    if post.deployOk then
      { status := 200, success := true, folderPath := some p,
        wroteTestFile := created }
    else
      { status := 500, success := false, folderPath := none,
        wroteTestFile := created }
  else
    { status := 400, success := false, folderPath := none,
      wroteTestFile := created }

/-- `POST /start-realtime-monitor` from the path argument to the response,
with filesystem facts supplied by the oracles. -/
def startRoutePath (env : PathEnv) (post : PostEnv) (folderPath : String) :
    StartRouteResult :=
  match resolveFolderPath env folderPath with
  | ResolveOutcome.locError =>
      { status := 500, success := false, folderPath := none,
        wroteTestFile := false }
  | ResolveOutcome.found p => startRouteAfterResolve post p false
  | ResolveOutcome.created p => startRouteAfterResolve post p true

/-!
Scenario states used by the concrete theorems below.
-/

/-- An empty route state: no agent was ever started. -/
def emptyDeployState : DeployState Nat :=
  { activeMonitors := [], monitorUpdates := [], sentUpdateIndices := [] }

/-- A route state with one running agent whose log holds one update, whose
stored watermark is 0, and whose process has not exited. -/
def oneAgentState : DeployState Nat :=
  { activeMonitors := [("agent_1", { killed := false, exited := false })],
    monitorUpdates := [("agent_1", [(0, 5)])],
    sentUpdateIndices := [("agent_1", 0)] }

/-- A monitor-output metric line: marker, label LOC, value 12. -/
def c8MetricLine1 : List Char := metricMarker ++ (" LOC: 12").toList

/-- A monitor-output metric line: marker, label FUNCTIONS, value 3. -/
def c8MetricLine2 : List Char := metricMarker ++ (" FUNCTIONS: 3").toList

/-- A non-metric line ending a metrics run. -/
def c8EndLine : List Char := ("Analysis complete").toList

/-- One stdout chunk delivering two metric lines and a closing non-metric
line, each newline-terminated. -/
def c8Chunk : List Char :=
  c8MetricLine1 ++ '\n' :: (c8MetricLine2 ++ '\n' :: (c8EndLine ++ ['\n']))

/-- A concrete filesystem environment in which no candidate path exists
and the fallback directory can be created. -/
def c9Env : PathEnv :=
  { projectRoot := "/app/backend", cwd := "/app", homeUser := "user",
    mediaUser := "sekar", mediaDrives := [],
    isDir := fun _ => false, mkdirOk := true }

/-- Oracles under which every step after resolution succeeds. -/
def c9Post : PostEnv :=
  { statIsDir := fun _ => true, writable := fun _ => true, deployOk := true }

/-- A route state with two active agents whose ids both contain the
token "111". -/
def c10State : DeployState Nat :=
  { activeMonitors :=
      [("agent_111_a", { killed := false, exited := false }),
       ("agent_1117_b", { killed := false, exited := false })],
    monitorUpdates := [], sentUpdateIndices := [] }

/-!
Helper lemmas.
-/

/-- Slicing an empty array gives an empty array. -/
theorem jsSlice_nil {α : Type} (i : Int) : jsSlice ([] : List α) i = [] := by
  simp [jsSlice]

/-- `slice(-50)` keeps the last 50 elements: it drops
`(length - 50).toNat` elements from the front. -/
theorem jsSlice_neg50 {α : Type} (l : List α) :
    jsSlice l (-50) = l.drop (((l.length : Int) - 50).toNat) := by
  simp [jsSlice, show ((-50 : Int) < 0) from by norm_num, sub_eq_add_neg]

/-!
Claim C1 — re-polling after a lost response.
-/

/-- Claim C1 is false on the code: after two appends, a first poll returns
both entries and advances the stored watermark while the request is
processed; a second poll with unchanged log content (the retry after a
lost response) returns nothing, so the second response is not a superset
of the first attempt's entries. -/
theorem c1_counterexample :
    (0, 10) ∈ (pollSession (pushAll (initSession (α := Nat)) [10, 20])).1 ∧
    (0, 10) ∉
      (pollSession (pollSession (pushAll (initSession (α := Nat)) [10, 20])).2).1 := by
  decide

/-- C1 (amended): the watermark advances when the poll request is
processed, not on delivery; a repeat poll with no intervening appends
returns nothing — except when the buffer holds exactly one entry, whose
stored watermark 0 is read back as -1 (JavaScript `|| -1` on a falsy 0)
and the entry is re-sent. -/
theorem c1_amended_advance {α : Type} (s : MonSession α) :
    (pollSession (pollSession s).2).1 =
      if s.updates.length = 1 then s.updates else [] := by
  rcases s with ⟨l, tot, ls⟩
  by_cases h : l.length = 1
  · have h0 : ((l.length : Int) - 1) = 0 := by omega
    simp [pollSession, jsOrNegOne, jsSlice, h0, h]
  · rcases Nat.eq_zero_or_pos l.length with hz | hp
    · have hnil : l = [] := List.length_eq_zero.mp hz
      subst hnil
      simp [pollSession, jsOrNegOne, jsSlice]
    · have h0 : ¬ ((l.length : Int) - 1 = 0) := by omega
      have h1 : ¬ ((l.length : Int) - 1 + 1 < 0) := by omega
      have h2 : ((l.length : Int) - 1 + 1).toNat = l.length := by omega
      simp [pollSession, jsOrNegOne, jsSlice, h0, h1, h2, h]

/-!
Claim C2 — `since(k)` exactness of the poll.
-/

set_option maxRecDepth 40000 in
/-- Claim C2 is right about the intent and the code is wrong: a poll never
"fails" for low watermarks, but it does not return exactly the retained
entries with sequence index above the stored watermark.  First run: after
one append and one poll the stored watermark is 0; a later poll re-reads
it as -1 (JavaScript `|| -1` on the falsy 0) and re-sends sequence index
0 alongside index 1.  Second run: after a poll with watermark 1 and 49
further appends (51 appends in total, so one eviction), the retained
entry with sequence index 2 lies above the watermark yet is missing from
the poll response, because the watermark counts buffer positions that
eviction has shifted. -/
theorem c2_code_eval :
    ((pollSession (pushUpdate (initSession (α := Nat)) 10)).2.lastSent = some 0)
    ∧ ((pollSession
          (pushUpdate (pollSession (pushUpdate (initSession (α := Nat)) 10)).2 20)).1
        = [(0, 10), (1, 20)])
    ∧ ((pollSession (pushAll (initSession (α := Nat)) [0, 1])).2.lastSent = some 1)
    ∧ ((2, 2) ∈
        (pushAll (pollSession (pushAll (initSession (α := Nat)) [0, 1])).2
          (List.range' 2 49)).updates)
    ∧ ((2, 2) ∉
        (pollSession
          (pushAll (pollSession (pushAll (initSession (α := Nat)) [0, 1])).2
            (List.range' 2 49))).1) := by
  decide

/-!
Claim C3 — stability of indices under eviction.
-/

set_option maxRecDepth 40000 in
/-- Claim C3 is false on the code: the code stores no per-entry index, and
the buffer position (the index the poll watermark actually uses) is
renumbered by eviction.  After 50 appends the second-appended entry sits
at position 1 and the first at position 0; one more append evicts the
oldest and moves the second-appended entry to position 0 — its position
changed, and position 0 now names a different entry than before. -/
theorem c3_counterexample :
    ((pushAll (initSession (α := Nat)) (List.range 50)).updates.findIdx?
        (fun e => e == (1, 1)) = some 1)
    ∧ ((pushUpdate (pushAll (initSession (α := Nat)) (List.range 50)) 50).updates.findIdx?
        (fun e => e == (1, 1)) = some 0)
    ∧ ((pushAll (initSession (α := Nat)) (List.range 50)).updates.findIdx?
        (fun e => e == (0, 0)) = some 0) := by
  decide

/-- C3 (amended): appends below capacity keep every entry at its position
and add the new entry at the end (so positions coincide with the
strictly increasing append order while at most 50 updates have ever been
appended); an append at capacity evicts the oldest entry and shifts every
surviving entry's position down by one — surviving entries are renumbered
and positions are reused. -/
theorem c3_amended_shift {α : Type} (s : MonSession α) (a : α)
    (h : s.updates.length ≤ 50) :
    (pushUpdate s a).updates =
      if s.updates.length < 50 then s.updates ++ [(s.total, a)]
      else s.updates.drop 1 ++ [(s.total, a)] := by
  have hlen : (s.updates ++ [(s.total, a)]).length = s.updates.length + 1 := by
    simp
  rw [pushUpdate, jsSlice_neg50, hlen]
  by_cases hlt : s.updates.length < 50
  · have h0 : ((s.updates.length : Int) + 1 - 50).toNat = 0 := by omega
    simp only [Nat.cast_add, Nat.cast_one, h0, List.drop_zero, if_pos hlt]
  · have h1 : ((s.updates.length : Int) + 1 - 50).toNat = 1 := by omega
    simp only [Nat.cast_add, Nat.cast_one, h1, if_neg hlt]
    rw [List.drop_append_of_le_length (by omega)]

/-- Witness for the amended C3 theorem at a concrete two-entry session. -/
theorem c3_amended_witness :
    (pushUpdate (pushAll (initSession (α := Nat)) [7, 9]) 8).updates =
      if (pushAll (initSession (α := Nat)) [7, 9]).updates.length < 50 then
        (pushAll (initSession (α := Nat)) [7, 9]).updates ++
          [((pushAll (initSession (α := Nat)) [7, 9]).total, 8)]
      else
        (pushAll (initSession (α := Nat)) [7, 9]).updates.drop 1 ++
          [((pushAll (initSession (α := Nat)) [7, 9]).total, 8)] :=
  c3_amended_shift (pushAll (initSession (α := Nat)) [7, 9]) 8 (by decide)

/-!
Claim C4 — polling an unknown session.
-/

/-- Claim C4 is false on the code: a poll for a session that was never
created answers HTTP 200 with an empty list, not a NotFound error. -/
theorem c4_counterexample :
    ((pollRoute emptyDeployState "ghost").1 = { status := 200, body := [] })
    ∧ ((pollRoute emptyDeployState "ghost").1.status ≠ 404) := by
  decide

/-- C4 (amended): a poll whose session has no `monitorUpdates` entry
(never created, or already stopped and cleaned up) answers 200 with an
empty list — exactly the "nothing new" response, so a client cannot
distinguish the two situations. -/
theorem c4_amended_unknown_session {α : Type} (st : DeployState α)
    (agentId : String) (h : st.monitorUpdates.lookup agentId = none) :
    (pollRoute st agentId).1 = { status := 200, body := [] } := by
  simp [pollRoute, h, jsSlice_nil]

/-- Witness for the amended C4 theorem at the empty route state. -/
theorem c4_amended_witness :
    (pollRoute emptyDeployState "gone_agent").1 = { status := 200, body := [] } :=
  c4_amended_unknown_session emptyDeployState "gone_agent" rfl

/-!
Claim C6 — launch failure reporting.
-/

/-- Claim C6 is false on the code: when the spawned process fires its
`error` event (launch failure), the start route still responds success,
and the failure is recorded as an `error` update in `monitorUpdates`,
retrievable only by polling. -/
theorem c6_counterexample :
    ((startAfterSpawn (some (("spawn python3 ENOENT").toList))).resp
      = { status := 200, success := true })
    ∧ ((startAfterSpawn (some (("spawn python3 ENOENT").toList))).updatesLog
      = [(0, UpdRec.errorMsg (failMsgHead ++ ("spawn python3 ENOENT").toList))]) := by
  decide

/-- C6 (amended): a launch failure is reported asynchronously, not to the
start caller: the route responds 200 `success: true` after its 1-second
delay regardless; the `error` event handler removes the agent from
`activeMonitors` but leaves the `monitorUpdates` entry in place, holding
one `error` update whose message wraps the launch error. -/
theorem c6_amended_async_error (msg : List Char) :
    startAfterSpawn (some msg) =
      { resp := { status := 200, success := true },
        sessionActive := false,
        updatesLog := [(0, UpdRec.errorMsg (failMsgHead ++ msg))] } := by
  simp [startAfterSpawn, jsSlice]

/-!
Claim C7 — stop: kill escalation and bookkeeping cleanup.
-/

/-- Claim C7 is false on the code: stopping a running agent answers 200
and deletes the `monitorUpdates` (UpdateLog) entry, but the
`sentUpdateIndices` (PollCursor) entry survives; and although the process
has not exited, the only signal sent is SIGTERM — the 5-second escalation
checks the `killed` flag (signal dispatched), which SIGTERM already set,
so SIGKILL is never sent. -/
theorem c7_counterexample :
    ((stopMonitoring oneAgentState none (some "agent_1")).status = 200)
    ∧ ((stopMonitoring oneAgentState none (some "agent_1")).state.monitorUpdates.lookup
        "agent_1" = none)
    ∧ ((stopMonitoring oneAgentState none (some "agent_1")).state.sentUpdateIndices.lookup
        "agent_1" = some 0)
    ∧ ((stopMonitoring oneAgentState none (some "agent_1")).signals = ["SIGTERM"]) := by
  decide

/-- C7 (amended): stopping an active, not-yet-signalled agent sends only
SIGTERM (the forced kill after the 5-second grace period is issued only
if the SIGTERM signal itself failed to dispatch, since the check reads
the `killed` flag rather than exit), removes the agent's entries from
`activeMonitors` and `monitorUpdates`, and leaves `sentUpdateIndices`
untouched. -/
theorem c7_amended_cleanup {α : Type} (st : DeployState α) (t : String)
    (proc : ProcState) (hne : t ≠ "")
    (hl : st.activeMonitors.lookup t = some proc)
    (hk : proc.killed = false) :
    ((stopMonitoring st none (some t)).status = 200)
    ∧ ((stopMonitoring st none (some t)).signals = ["SIGTERM"])
    ∧ ((stopMonitoring st none (some t)).state.activeMonitors
        = assocDelete st.activeMonitors t)
    ∧ ((stopMonitoring st none (some t)).state.monitorUpdates
        = assocDelete st.monitorUpdates t)
    ∧ ((stopMonitoring st none (some t)).state.sentUpdateIndices
        = st.sentUpdateIndices) := by
  have htr : jsTruthyStr (some t) = true := by
    simp only [jsTruthyStr, Bool.not_eq_true']
    exact Bool.eq_false_iff.mpr (fun hh => hne ((String.isEmpty_iff t).mp hh))
  simp [stopMonitoring, stopTarget, htr, hl, stopKillSequence, hk]

/-- Witness for the amended C7 theorem at the one-agent route state. -/
theorem c7_amended_witness :
    ((stopMonitoring oneAgentState none (some "agent_1")).status = 200)
    ∧ ((stopMonitoring oneAgentState none (some "agent_1")).signals = ["SIGTERM"])
    ∧ ((stopMonitoring oneAgentState none (some "agent_1")).state.activeMonitors
        = assocDelete oneAgentState.activeMonitors "agent_1")
    ∧ ((stopMonitoring oneAgentState none (some "agent_1")).state.monitorUpdates
        = assocDelete oneAgentState.monitorUpdates "agent_1")
    ∧ ((stopMonitoring oneAgentState none (some "agent_1")).state.sentUpdateIndices
        = oneAgentState.sentUpdateIndices) :=
  c7_amended_cleanup oneAgentState "agent_1" { killed := false, exited := false }
    (by decide) (by decide) rfl

/-!
Claim C5 — chunk-boundary behaviour of the stdout handler.
-/

/-- Unfolding equation of `splitNl` on a cons. -/
theorem splitNl_cons (c : Char) (cs : List Char) :
    splitNl (c :: cs) =
      if c = '\n' then [] :: splitNl cs
      else
        match splitNl cs with
        | [] => [[c]]
        | l :: ls => (c :: l) :: ls := rfl

/-- Splitting on newlines never yields an empty segment list. -/
theorem splitNl_ne_nil (l : List Char) : splitNl l ≠ [] := by
  induction l with
  | nil => simp [splitNl]
  | cons c cs ih =>
      rw [splitNl_cons]
      by_cases hc : c = '\n'
      · rw [if_pos hc]; simp
      · rw [if_neg hc]
        cases h : splitNl cs with
        | nil => exact absurd h ih
        | cons a as => simp

/-- A newline closes the current segment: splitting `a ++ '\n' :: b`
yields the segments of `a` followed by the segments of `b`. -/
theorem splitNl_append_newline (a b : List Char) :
    splitNl (a ++ '\n' :: b) = splitNl a ++ splitNl b := by
  induction a with
  | nil => simp [splitNl]
  | cons c cs ih =>
      have hstep : (c :: cs) ++ '\n' :: b = c :: (cs ++ '\n' :: b) := rfl
      rw [hstep, splitNl_cons, splitNl_cons, ih]
      by_cases hc : c = '\n'
      · rw [if_pos hc, if_pos hc]
        simp
      · rw [if_neg hc, if_neg hc]
        cases h : splitNl cs with
        | nil => exact absurd h (splitNl_ne_nil cs)
        | cons x xs => simp

/-- `lineStep` ignores the accumulated update list except to append to
it, and its buffer output does not depend on it. -/
theorem lineStep_decompose (tj : List Char → Option JVal)
    (buf : List (List Char)) (loc : List UpdRec) (x : List Char) :
    lineStep tj (buf, loc) x =
      ((lineStep tj (buf, []) x).1, loc ++ (lineStep tj (buf, []) x).2) := by
  unfold lineStep
  cases tj x with
  | some j =>
      by_cases hty : (j.ty = "file_change" || j.ty = "analysis_result") = true
      · simp [hty]
      · simp [hty]
  | none => simp

/-- Folding `lineStep` over a line list: the final buffer does not depend
on the initial update list, and the updates produced are appended to it. -/
theorem foldl_lineStep_decompose (tj : List Char → Option JVal)
    (L : List (List Char)) :
    ∀ (buf : List (List Char)) (loc : List UpdRec),
      List.foldl (lineStep tj) (buf, loc) L =
        ((List.foldl (lineStep tj) (buf, []) L).1,
          loc ++ (List.foldl (lineStep tj) (buf, []) L).2) := by
  induction L with
  | nil => intro buf loc; simp
  | cons x L ih =>
      intro buf loc
      rcases h1 : lineStep tj (buf, []) x with ⟨b1, d1⟩
      simp only [List.foldl_cons]
      rw [lineStep_decompose tj buf loc x, h1]
      simp only
      rw [ih b1 (loc ++ d1), ih b1 d1]
      simp [List.append_assoc]

/-- `slice(-50)` on an array never shorter than its already-trimmed head:
trimming the head early and trimming once at the end agree. -/
theorem jsSlice_absorb {α : Type} (A B : List α) :
    jsSlice (jsSlice A (-50) ++ B) (-50) = jsSlice (A ++ B) (-50) := by
  have hform : ∀ (l : List α), jsSlice l (-50) = l.drop (l.length - 50) := by
    intro l
    rw [jsSlice_neg50]
    congr 1
    omega
  rw [hform, hform, hform]
  have hk : A.length - 50 ≤ A.length := Nat.sub_le _ _
  rw [← List.drop_append_of_le_length hk]
  simp only [List.length_drop, List.length_append]
  rw [List.drop_drop]
  congr 1
  omega

/-- Claim C5 is false on the code: the handler parses each chunk's
newline segments immediately, so a logical line split across two chunks
at a non-newline boundary is parsed as two separate partial lines.  The
line "hello world" delivered as one chunk yields one console update with
the whole text; delivered as the chunks "hello " and "world\n" it yields
two console updates with the two fragments. -/
theorem c5_counterexample :
    ((processChunks tryJsonNever [("hello world\n").toList]).stored
      = [UpdRec.consoleOutput (("hello world").toList) none])
    ∧ ((processChunks tryJsonNever [("hello ").toList, ("world\n").toList]).stored
      = [UpdRec.consoleOutput (("hello ").toList) none,
         UpdRec.consoleOutput (("world").toList) none])
    ∧ ((processChunks tryJsonNever [("hello ").toList, ("world\n").toList]).stored
      ≠ (processChunks tryJsonNever [("hello world\n").toList]).stored) := by
  decide

/-- C5 (amended): parsing is chunkwise — each chunk is split on newlines
and every segment with a non-blank trim is interpreted at once, so a line
spanning a chunk boundary is parsed as separate partial lines; when the
boundary falls on a newline, however, delivering the text as two chunks
is equivalent to delivering it as one. -/
theorem c5_amended_newline_boundary (tj : List Char → Option JVal)
    (st : HandlerState) (c1 c2 : List Char) :
    processChunk tj (processChunk tj st (c1 ++ ['\n'])) c2 =
      processChunk tj st (c1 ++ ['\n'] ++ c2) := by
  have hsplit1 : (splitNl (c1 ++ ['\n'])).filter hasNonWs =
      (splitNl c1).filter hasNonWs := by
    have he : c1 ++ ['\n'] = c1 ++ '\n' :: [] := rfl
    rw [he, splitNl_append_newline]
    simp [splitNl, hasNonWs]
  have hsplitC : (splitNl (c1 ++ ['\n'] ++ c2)).filter hasNonWs =
      (splitNl c1).filter hasNonWs ++ (splitNl c2).filter hasNonWs := by
    have he : c1 ++ ['\n'] ++ c2 = c1 ++ '\n' :: c2 := by simp
    rw [he, splitNl_append_newline, List.filter_append]
  simp only [processChunk, hsplit1, hsplitC]
  by_cases h1 : (splitNl c1).filter hasNonWs = []
  · simp [h1]
  · by_cases h2 : (splitNl c2).filter hasNonWs = []
    · simp [h1, h2, List.foldl_append]
    · rcases hf1 : List.foldl (lineStep tj) (st.bufferLines, st.stored)
        ((splitNl c1).filter hasNonWs) with ⟨B1, loc1⟩
      have hne1 : ((splitNl c1).filter hasNonWs).isEmpty = false := by
        simpa [List.isEmpty_iff] using h1
      have hne2 : ((splitNl c2).filter hasNonWs).isEmpty = false := by
        simpa [List.isEmpty_iff] using h2
      have hneC : (((splitNl c1).filter hasNonWs) ++
          ((splitNl c2).filter hasNonWs)).isEmpty = false := by
        simp [List.isEmpty_iff, h1]
      rw [List.foldl_append, hf1]
      simp only [hne1, hne2, hneC, Bool.false_eq_true, if_false]
      rw [foldl_lineStep_decompose tj ((splitNl c2).filter hasNonWs) B1
            (jsSlice loc1 (-50)),
          foldl_lineStep_decompose tj ((splitNl c2).filter hasNonWs) B1 loc1]
      simp [jsSlice_absorb]

/-!
Claim C8 — metrics accumulation.
-/

set_option maxRecDepth 100000 in
/-- Claim C8 names the intended behaviour and the code drops the result: a
run of metric lines followed by a non-metric line is parsed by
`parseMetricsSection` (third conjunct: both fields are recovered from the
buffered lines), but the flush only logs that object and clears the
buffer before the attach check runs, so no update carries any metrics —
the handler instead emits one plain `console_output` update per line,
with the metrics field empty everywhere (first conjunct), and ends with
an empty buffer (second conjunct). -/
theorem c8_code_eval :
    ((processChunks tryJsonNever [c8Chunk]).stored
      = [UpdRec.consoleOutput c8MetricLine1 none,
         UpdRec.consoleOutput c8MetricLine2 none,
         UpdRec.consoleOutput c8EndLine none])
    ∧ ((processChunks tryJsonNever [c8Chunk]).bufferLines = [])
    ∧ (parseMetricsSection [c8MetricLine1, c8MetricLine2]
        = some { loc := some 12, functions := some 3 }) := by
  decide

/-!
Claim C9 — fallback directory creation for unresolvable relative paths.
-/

/-- Claim C9 holds: when a relative folder path matches no candidate
location and the fallback `mkdir` (with its `test.py` seed) succeeds, the
start route resolves to `/tmp/riskguard_test/<folderPath>`, deploys
there, and answers 200 with `success: true` — no path error is
returned. -/
theorem c9_fallback_success (env : PathEnv) (post : PostEnv)
    (folderPath : String)
    (habs : isAbsolutePath folderPath = false)
    (hdir : ∀ p ∈ possiblePaths env folderPath, env.isDir p = false)
    (hmk : env.mkdirOk = true)
    (hstat : post.statIsDir (pjoin "/tmp/riskguard_test" folderPath) = true)
    (hw : post.writable (pjoin "/tmp/riskguard_test" folderPath) = true)
    (hdep : post.deployOk = true) :
    startRoutePath env post folderPath =
      { status := 200, success := true,
        folderPath := some (pjoin "/tmp/riskguard_test" folderPath),
        wroteTestFile := true } := by
  have hfind : (possiblePaths env folderPath).find? env.isDir = none := by
    apply List.find?_eq_none.mpr
    intro p hp
    simp [hdir p hp]
  simp [startRoutePath, resolveFolderPath, habs, hfind, hmk,
        startRouteAfterResolve, hstat, hw, hdep]

/-- Witness for the C9 theorem at a concrete environment. -/
theorem c9_fallback_witness :
    startRoutePath c9Env c9Post "myproj" =
      { status := 200, success := true,
        folderPath := some (pjoin "/tmp/riskguard_test" "myproj"),
        wroteTestFile := true } :=
  c9_fallback_success c9Env c9Post "myproj" (by decide) (fun p _ => rfl) rfl rfl rfl rfl

/-!
Claim C10 — session selection by substring matching in the stop route.
-/

/-- A key that occurs among an association list's keys has a lookup. -/
theorem lookup_isSome_of_mem_keys {β : Type} (l : List (String × β))
    (t : String) (h : t ∈ l.map Prod.fst) : (l.lookup t).isSome := by
  induction l with
  | nil => simp at h
  | cons p l ih =>
      by_cases ht : t = p.1
      · simp [List.lookup, ht]
      · have hm : t ∈ l.map Prod.fst := by
          rcases List.mem_cons.mp h with he | hm
          · exact absurd he ht
          · exact hm
        have hb : (t == p.1) = false := by
          simp [ht]
        simp [List.lookup, hb, ih hm]

/-- A successful `find?` finds the first satisfying element: the list
decomposes around the result, with the predicate false on everything
before it. -/
theorem find?_eq_some_first {β : Type} (p : β → Bool) (l : List β) (b : β)
    (h : l.find? p = some b) :
    p b = true ∧ ∃ pre suf, l = pre ++ b :: suf ∧ ∀ x ∈ pre, p x = false := by
  induction l with
  | nil => simp [List.find?] at h
  | cons a l ih =>
      by_cases hpa : p a = true
      · rw [List.find?_cons_of_pos l hpa] at h
        obtain rfl : a = b := by injection h
        exact ⟨hpa, [], l, by simp, by simp⟩
      · rw [List.find?_cons_of_neg l hpa] at h
        obtain ⟨hpb, pre, suf, heq, hpre⟩ := ih h
        refine ⟨hpb, a :: pre, suf, by simp [heq], ?_⟩
        intro x hx
        rcases List.mem_cons.mp hx with he | hm
        · subst he
          exact Bool.eq_false_iff.mpr hpa
        · exact hpre x hm

set_option maxRecDepth 40000 in
/-- Claim C10 holds: with only a `sessionId` supplied, the stop route
stops the first active agent (in insertion order) whose id contains the
second underscore-separated token of the `sessionId` (second conjunct),
and answers 404 exactly when no active agent id contains that token
(first conjunct).  The third conjunct exhibits the ambiguity: a state
with two distinct active agents both matching the token, where the first
is the one stopped. -/
theorem c10_stop_substring_selection {α : Type} (st : DeployState α)
    (sid : String) (h2 : 2 ≤ (splitSep '_' sid.toList).length) :
    (((stopMonitoring st (some sid) none).status = 404) ↔
      (∀ id ∈ st.activeMonitors.map Prod.fst,
        hasSub (secondToken sid) id.toList = false))
    ∧ (∀ t, (stopMonitoring st (some sid) none).stoppedAgent = some t →
        hasSub (secondToken sid) t.toList = true ∧
        ∃ pre suf, st.activeMonitors.map Prod.fst = pre ++ t :: suf ∧
          ∀ x ∈ pre, hasSub (secondToken sid) x.toList = false)
    ∧ ((stopMonitoring c10State (some "sess_111_x") none).stoppedAgent
        = some "agent_111_a"
      ∧ ("agent_1117_b" ∈ c10State.activeMonitors.map Prod.fst)
      ∧ (hasSub (secondToken "sess_111_x") (("agent_1117_b").toList) = true)
      ∧ (("agent_111_a" : String) ≠ "agent_1117_b")) := by
  have hsne : sid ≠ "" := by
    intro he
    rw [he] at h2
    exact absurd h2 (by decide)
  have hie : sid.isEmpty = false :=
    Bool.eq_false_iff.mpr (fun hh => hsne ((String.isEmpty_iff sid).mp hh))
  have htgt : stopTarget (st.activeMonitors.map Prod.fst) (some sid) none =
      (st.activeMonitors.map Prod.fst).find?
        (fun id => hasSub (secondToken sid) id.toList) := by
    simp [stopTarget, jsTruthyStr, hie]
  refine ⟨?_, ?_, ?_⟩
  · cases hf : (st.activeMonitors.map Prod.fst).find?
        (fun id => hasSub (secondToken sid) id.toList) with
    | none =>
        have h404 : (stopMonitoring st (some sid) none).status = 404 := by
          simp only [stopMonitoring]
          rw [htgt]
          simp only [hf]
        constructor
        · intro _ id hid
          exact Bool.eq_false_iff.mpr (List.find?_eq_none.mp hf id hid)
        · intro _
          exact h404
    | some t =>
        have hmem : t ∈ st.activeMonitors.map Prod.fst :=
          List.mem_of_find?_eq_some hf
        obtain ⟨proc, hproc⟩ := Option.isSome_iff_exists.mp
          (lookup_isSome_of_mem_keys st.activeMonitors t hmem)
        have h200 : (stopMonitoring st (some sid) none).status = 200 := by
          simp only [stopMonitoring]
          rw [htgt]
          simp only [hf, hproc]
        constructor
        · intro hcontr
          rw [h200] at hcontr
          exact absurd hcontr (by norm_num)
        · intro hall
          have hpt := List.find?_some hf
          have hft : hasSub (secondToken sid) t.toList = false := hall t hmem
          rw [hft] at hpt
          exact Bool.noConfusion hpt
  · intro t ht
    cases hf : (st.activeMonitors.map Prod.fst).find?
        (fun id => hasSub (secondToken sid) id.toList) with
    | none =>
        simp only [stopMonitoring] at ht
        rw [htgt] at ht
        simp only [hf] at ht
        exact Option.noConfusion ht
    | some u =>
        have hmem : u ∈ st.activeMonitors.map Prod.fst :=
          List.mem_of_find?_eq_some hf
        obtain ⟨proc, hproc⟩ := Option.isSome_iff_exists.mp
          (lookup_isSome_of_mem_keys st.activeMonitors u hmem)
        simp only [stopMonitoring] at ht
        rw [htgt] at ht
        simp only [hf, hproc] at ht
        have hut : some u = some t := ht
        injection hut with hut
        subst hut
        obtain ⟨hpb, pre, suf, heq, hpre⟩ := find?_eq_some_first _ _ _ hf
        exact ⟨hpb, pre, suf, heq, hpre⟩
  · exact ⟨by decide, by decide, by decide, by decide⟩

set_option maxRecDepth 40000 in
/-- Witness for the C10 theorem at the two-agent route state. -/
theorem c10_witness :
    (((stopMonitoring c10State (some "sess_111_x") none).status = 404) ↔
      (∀ id ∈ c10State.activeMonitors.map Prod.fst,
        hasSub (secondToken "sess_111_x") id.toList = false))
    ∧ (∀ t,
        (stopMonitoring c10State (some "sess_111_x") none).stoppedAgent = some t →
        hasSub (secondToken "sess_111_x") t.toList = true ∧
        ∃ pre suf, c10State.activeMonitors.map Prod.fst = pre ++ t :: suf ∧
          ∀ x ∈ pre, hasSub (secondToken "sess_111_x") x.toList = false)
    ∧ ((stopMonitoring c10State (some "sess_111_x") none).stoppedAgent
        = some "agent_111_a"
      ∧ ("agent_1117_b" ∈ c10State.activeMonitors.map Prod.fst)
      ∧ (hasSub (secondToken "sess_111_x") (("agent_1117_b").toList) = true)
      ∧ (("agent_111_a" : String) ≠ "agent_1117_b")) :=
  c10_stop_substring_selection c10State "sess_111_x" (by decide)

/-- Witness for the amended C1 theorem at a concrete two-entry session. -/
theorem c1_amended_witness :
    (pollSession (pollSession (pushAll (initSession (α := Nat)) [3, 4])).2).1 =
      if (pushAll (initSession (α := Nat)) [3, 4]).updates.length = 1 then
        (pushAll (initSession (α := Nat)) [3, 4]).updates
      else [] :=
  c1_amended_advance (pushAll (initSession (α := Nat)) [3, 4])

/-- Witness for the amended C5 theorem at concrete chunks. -/
theorem c5_amended_witness :
    processChunk tryJsonNever
        (processChunk tryJsonNever initHandler ((("ab").toList) ++ ['\n']))
        (("cd\n").toList) =
      processChunk tryJsonNever initHandler
        ((("ab").toList) ++ ['\n'] ++ (("cd\n").toList)) :=
  c5_amended_newline_boundary tryJsonNever initHandler (("ab").toList)
    (("cd\n").toList)

/-- Witness for the amended C6 theorem at a concrete error message. -/
theorem c6_amended_witness :
    startAfterSpawn (some (("boom").toList)) =
      { resp := { status := 200, success := true },
        sessionActive := false,
        updatesLog := [(0, UpdRec.errorMsg (failMsgHead ++ ("boom").toList))] } :=
  c6_amended_async_error (("boom").toList)
